import Mathlib

/-!
Shallow embedding of the YAFFS2 image reader (`reader.go`) from the
`yaffsreader` repository, together with theorems settling the claims about
its specification.

Machine integers (Go `uint32`) are modelled as `Nat`; every operation the
code performs on them (comparisons, bit masking with `&`, shifts) is
overflow-free on 32-bit inputs, so no explicit `% 2^32` is needed; theorems
carry `< 2^32` bounds where the 32-bit range matters.  Byte buffers are
`List Nat` (each element one byte).  The byte order is little-endian
throughout, exactly as in the code (`detectSettings` fixes
`byteOrder := binary.LittleEndian` and the fallback default is
little-endian as well).
-/

/-! ### Constants (`const` block of reader.go) -/

def YAFFS_MAX_NAME_LENGTH : Nat := 255

def YAFFS_MAX_ALIAS_LENGTH : Nat := 159

def YAFFS_LOWEST_SEQUENCE_NUMBER : Nat := 0x00001000

def YAFFS_HIGHEST_SEQUENCE_NUMBER : Nat := 0xefffff00

def YAFFS_SEQUENCE_BAD_BLOCK : Nat := 0xffff0000

def EXTRA_HEADER_INFO_FLAG : Nat := 0x80000000

def EXTRA_SHRINK_FLAG : Nat := 0x40000000

def EXTRA_SHADOWS_FLAG : Nat := 0x20000000

def ALL_EXTRA_FLAGS : Nat := 0xf0000000

def NOT_ALL_EXTRA_FLAGS : Nat := 0xfffffff

def EXTRA_OBJECT_TYPE_SHIFT : Nat := 28

def NOT_EXTRA_OBJECT_TYPE_MASK : Nat := 0xfffffff

def YAFFS_OBJECT_SPACE : Nat := 0x40000

def YAFFS_MAX_OBJECT_ID : Nat := YAFFS_OBJECT_SPACE - 1

def YAFFS_TNODES_LEVEL0_BITS : Nat := 4

def YAFFS_TNODES_INTERNAL_BITS : Nat := YAFFS_TNODES_LEVEL0_BITS - 1

def YAFFS_TNODES_MAX_LEVEL : Nat := 8

def YAFFS_TNODES_MAX_BITS : Nat :=
  YAFFS_TNODES_LEVEL0_BITS + YAFFS_TNODES_INTERNAL_BITS * YAFFS_TNODES_MAX_LEVEL

def YAFFS_MAX_CHUNK_ID : Nat := (1 <<< YAFFS_TNODES_MAX_BITS) - 1

def YAFFS_NOBJECT_BUCKETS : Nat := 256

/-! ### objectIDValid (reader.go lines 304-314) -/

/-- Embedding of `objectIDValid`: the `switch` accepts the special IDs and
the fallthrough rejects IDs below `YAFFS_NOBJECT_BUCKETS` or above
`YAFFS_MAX_OBJECT_ID`. -/
def objectIDValid (objectID : Nat) : Bool :=
  if objectID = 1 ∨ objectID = 2 ∨ objectID = 3 ∨ objectID = 4 ∨ objectID = 0x10 then
    true
  else if objectID < YAFFS_NOBJECT_BUCKETS ∨ objectID > YAFFS_MAX_OBJECT_ID then
    false
  else
    true

/-! ### Spare tag decoding (reader.go lines 96-154) -/

/-- Embedding of the Go struct `Yaffs2SpareRaw`: the four raw `uint32`
fields read from the spare area. -/
structure Yaffs2SpareRaw where
  SeqNumber : Nat
  ObjectID : Nat
  ChunkID : Nat
  NumberBytes : Nat
deriving DecidableEq, Repr

/-- Embedding of the Go struct `Yaffs2Spare`.  The Go zero values of the
fields not set by a given branch of `Parse` are `0` and `false`. -/
structure Yaffs2Spare where
  SeqNumber : Nat
  ObjectID : Nat
  ChunkID : Nat
  NumberBytes : Nat
  ExtraValid : Bool
  ParentID : Nat
  IsShrink : Bool
  Shadows : Bool
  ObjType : Nat
deriving DecidableEq, Repr

/-- Embedding of `(*Yaffs2SpareRaw).Parse`.  The Go method returns a
`*Yaffs2Spare` that is `nil` on rejection; here `nil` is `none`. -/
def Yaffs2SpareRaw.Parse (s : Yaffs2SpareRaw) : Option Yaffs2Spare :=
  -- Sanity check sequence number
  if s.SeqNumber = YAFFS_SEQUENCE_BAD_BLOCK ∨
      s.SeqNumber < YAFFS_LOWEST_SEQUENCE_NUMBER ∨
      s.SeqNumber > YAFFS_HIGHEST_SEQUENCE_NUMBER then
    none
  else
    let base : Yaffs2Spare :=
      { SeqNumber := s.SeqNumber
        ObjectID := s.ObjectID
        ChunkID := s.ChunkID
        NumberBytes := s.NumberBytes
        ExtraValid := false
        ParentID := 0
        IsShrink := false
        Shadows := false
        ObjType := 0 }
    -- Match C logic (everything not zero is true)
    let spare : Yaffs2Spare :=
      if s.ChunkID &&& EXTRA_HEADER_INFO_FLAG ≠ 0 then
        { base with
          ChunkID := 0
          NumberBytes := 0
          ExtraValid := true
          ParentID := s.ChunkID &&& NOT_ALL_EXTRA_FLAGS
          IsShrink := s.ChunkID &&& EXTRA_SHRINK_FLAG != 0
          Shadows := s.ChunkID &&& EXTRA_SHADOWS_FLAG != 0
          ObjType := s.ObjectID >>> EXTRA_OBJECT_TYPE_SHIFT
          ObjectID := s.ObjectID &&& NOT_EXTRA_OBJECT_TYPE_MASK }
      else base
    -- Checks after parsing extra header information
    if ¬ objectIDValid spare.ObjectID ∨ spare.ChunkID > YAFFS_MAX_CHUNK_ID then
      none
    else
      some spare

/-! ### Block emptiness (reader.go lines 317-325) -/

/-- Embedding of `checkBlockEmpty`: empty NAND blocks are 0xFF filled.  The
Go loop returns `false` at the first byte that is not `0xFF`, which is
exactly `List.all`. -/
def checkBlockEmpty (buf : List Nat) : Bool :=
  buf.all (fun v => v == 0xFF)

/-! ### The page/spare read loop (reader.go lines 232-251 and 361-380)

Both the main read loop and the two-iteration loop inside `detectSettings`
read one page-sized buffer (break on short read), one spare-sized buffer
(break on short read), break when both buffers are entirely `0xFF`, and
otherwise append the pair.  `io.ReadFull` succeeds exactly when enough
bytes remain, and then yields exactly the next `n` bytes of the source. -/

/-- One iteration of the read loop: either the reason it breaks (`none`) or
the page buffer, the spare buffer, and the remaining input. -/
def scanStep (input : List Nat) (pageSize spareSize : Nat) :
    Option ((List Nat × List Nat) × List Nat) :=
  if input.length < pageSize then
    none
  else
    let pageBuf := input.take pageSize
    let rest1 := input.drop pageSize
    if rest1.length < spareSize then
      none
    else
      let spareBuf := rest1.take spareSize
      let rest2 := rest1.drop spareSize
      if checkBlockEmpty pageBuf ∧ checkBlockEmpty spareBuf then
        none
      else
        some ((pageBuf, spareBuf), rest2)

/-- The read loop, with an explicit iteration bound.  The loop inside
`detectSettings` runs at most two iterations (`fuel = 2`); the unbounded
main loop is recovered with any `fuel > input.length`, see
`readPairs_fuel_eq`. -/
def readPairs : List Nat → Nat → Nat → Nat → List (List Nat) × List (List Nat)
  | _, _, _, 0 => ([], [])
  | input, p, s, fuel + 1 =>
    match scanStep input p s with
    | none => ([], [])
    | some ((pg, sp), rest) =>
      let tail := readPairs rest p s fuel
      (pg :: tail.1, sp :: tail.2)

/-- The unbounded main read loop (reader.go lines 232-251): each iteration
that appends a pair consumes at least one input byte, so `input.length + 1`
iterations always suffice. -/
def mainPairs (input : List Nat) (p s : Nat) : List (List Nat) × List (List Nat) :=
  readPairs input p s (input.length + 1)

/-! ### Little-endian field extraction (`binary.Read`, little-endian) -/

/-- A little-endian `uint32` at offset `off` of a byte buffer. -/
def le32 (b : List Nat) (off : Nat) : Nat :=
  b.getD off 0 + 0x100 * b.getD (off + 1) 0 +
    0x10000 * b.getD (off + 2) 0 + 0x1000000 * b.getD (off + 3) 0

/-- A little-endian `uint64` at offset `off` of a byte buffer. -/
def le64 (b : List Nat) (off : Nat) : Nat :=
  le32 b off + 0x100000000 * le32 b (off + 4)

/-- Embedding of `binary.Read(bytes.NewReader(spare[skip:]), LittleEndian,
&Yaffs2SpareRaw{...})`: reads four `uint32` fields from the spare buffer at
offset `skip`; `binary.Read` fails (`none`, `log.Fatal` in the caller) when
fewer than 16 bytes remain.  In every call site the spare buffer has at
least 32 bytes and `skip ≤ 2`, so the failure case is unreachable there. -/
def readSpareRaw (spare : List Nat) (skip : Nat) : Option Yaffs2SpareRaw :=
  let b := spare.drop skip
  if b.length < 16 then
    none
  else
    some
      { SeqNumber := le32 b 0
        ObjectID := le32 b 4
        ChunkID := le32 b 8
        NumberBytes := le32 b 12 }

/-! ### ObjectHeader decoding (reader.go lines 61-94, decoded at line 284)

`binary.Read` decodes the exported fields of the Go struct in declaration
order with no padding.  The resulting byte offsets are: ObjectType 0,
ParentObjectID 4, Checksum 8 (2 bytes), Name 10 (256 bytes), Mode 266,
UID 270, GID 274, AccessTime 278, ModTime 282, CreateTime 286,
FileSizeLow 290 (4 bytes), EquivID 294, Alias 298 (160 bytes), RDev 458,
WinCreateTime 462 (8 bytes), WinAccessTime 470, WinModTime 478,
InbandShadowedObjectID 486, InbandIsShrink 490, FileSizeHigh 494 (4
bytes), Reserved 498, ShadowsObject 502, IsShrink 506 --- 510 bytes in
total.  The Go `int32` fields (`EquivID`, `ShadowsObject`) are kept as the
unsigned 32-bit pattern that `binary.Read` fills them with. -/

/-- Embedding of the Go struct `ObjectHeader`. -/
structure ObjectHeader where
  ObjectType : Nat
  ParentObjectID : Nat
  Checksum : Nat × Nat
  Name : List Nat
  Mode : Nat
  UID : Nat
  GID : Nat
  AccessTime : Nat
  ModTime : Nat
  CreateTime : Nat
  FileSizeLow : List Nat
  EquivID : Nat
  Alias : List Nat
  RDev : Nat
  WinCreateTime : Nat
  WinAccessTime : Nat
  WinModTime : Nat
  InbandShadowedObjectID : Nat
  InbandIsShrink : Nat
  FileSizeHigh : List Nat
  Reserved : Nat
  ShadowsObject : Nat
  IsShrink : Nat
deriving DecidableEq, Repr

/-- Embedding of `binary.Read(bytes.NewReader(pages[k]), LittleEndian,
header)`: it fails (`none`, `log.Fatal` in the caller) when the page buffer
is shorter than the 510-byte struct; all page sizes in use are at least
1024 bytes, so the failure case is unreachable there. -/
def decodeObjectHeader (page : List Nat) : Option ObjectHeader :=
  if page.length < 510 then
    none
  else
    some
      { ObjectType := le32 page 0
        ParentObjectID := le32 page 4
        Checksum := (page.getD 8 0, page.getD 9 0)
        Name := (page.drop 10).take 256
        Mode := le32 page 266
        UID := le32 page 270
        GID := le32 page 274
        AccessTime := le32 page 278
        ModTime := le32 page 282
        CreateTime := le32 page 286
        FileSizeLow := (page.drop 290).take 4
        EquivID := le32 page 294
        Alias := (page.drop 298).take 160
        RDev := le32 page 458
        WinCreateTime := le64 page 462
        WinAccessTime := le64 page 470
        WinModTime := le64 page 478
        InbandShadowedObjectID := le32 page 486
        InbandIsShrink := le32 page 490
        FileSizeHigh := (page.drop 494).take 4
        Reserved := le32 page 498
        ShadowsObject := le32 page 502
        IsShrink := le32 page 506 }

/-! ### Settings and geometry detection (reader.go lines 331-426) -/

/-- Embedding of `binary.ByteOrder` as used here: the code only ever
constructs little-endian settings. -/
inductive BinaryByteOrder where
  | littleEndian
  | bigEndian
deriving DecidableEq, Repr

/-- Embedding of the Go struct `Settings`. -/
structure Settings where
  PageSize : Nat
  SpareSize : Nat
  SpareSkip : Nat
  ByteOrder : BinaryByteOrder
deriving DecidableEq, Repr

/-- Candidate page sizes tried by `detectSettings`, in order. -/
def pageSizes : List Nat := [1024, 2048, 4096, 8192, 16384]

/-- Candidate spare sizes tried by `detectSettings`, in order. -/
def spareSizes : List Nat := [32, 64, 128, 256, 512]

/-- Candidate skip offsets tried by `detectSettings`, in order. -/
def spareSkips : List Nat := [0, 2]

/-- The body of the innermost loop of `detectSettings` for one candidate
geometry: rewind, read at most two page/spare pairs, require two full
pairs, require the first spare tag to parse with `ChunkID == 0`, and
require the second spare tag to parse. -/
def candidateOK (input : List Nat) (pageSize spareSize spareSkip : Nat) : Bool :=
  let pairs := readPairs input pageSize spareSize 2
  if pairs.1.length < 2 ∨ pairs.1.length ≠ pairs.2.length then
    false
  else
    match readSpareRaw (pairs.2.getD 0 []) spareSkip with
    | none => false -- binary.Read failure is log.Fatal; unreachable, spare ≥ 32 bytes
    | some firstSpareRaw =>
      match firstSpareRaw.Parse with
      | none => false
      | some firstSpare =>
        if firstSpare.ChunkID ≠ 0 then
          false
        else
          match readSpareRaw (pairs.2.getD 1 []) spareSkip with
          | none => false -- binary.Read failure is log.Fatal; unreachable
          | some secondSpareRaw => secondSpareRaw.Parse.isSome

/-- Embedding of `detectSettings`: three nested loops with an early return
on the first candidate that passes `candidateOK`. -/
def detectSettings (input : List Nat) : Option Settings :=
  pageSizes.findSome? fun pageSize =>
    spareSizes.findSome? fun spareSize =>
      spareSkips.findSome? fun spareSkip =>
        if candidateOK input pageSize spareSize spareSkip then
          some
            { PageSize := pageSize
              SpareSize := spareSize
              SpareSkip := spareSkip
              ByteOrder := .littleEndian }
        else
          none

/-- The fallback settings `main` substitutes when detection fails
(reader.go lines 193-198). -/
def defaultSettings : Settings :=
  { PageSize := 2048, SpareSize := 64, SpareSkip := 0, ByteOrder := .littleEndian }

/-- The settings `main` actually proceeds with (reader.go lines 190-201):
the detected ones, or the default on detection failure. -/
def mainSettings (input : List Nat) : Settings :=
  (detectSettings input).getD defaultSettings

/-! ### The processing loop over collected pairs (reader.go lines 263-300)

For each pair: read the raw spare fields (`log.Fatal` on a structural read
failure), parse them, skip the pair on an invalid tag, and for tags with
`ChunkID == 0` decode the page as an `ObjectHeader`, aborting the whole
scan when its checksum field differs from `{0xFF, 0xFF}` and otherwise
yielding the header.  The output is the sequence of yielded headers; both
fatal exits (`log.Fatal` on a read failure, `break` on a checksum
mismatch) end the output sequence immediately. -/

def processPairs (pairs : List (List Nat × List Nat)) (skip : Nat) : List ObjectHeader :=
  match pairs with
  | [] => []
  | (page, spare) :: rest =>
    match readSpareRaw spare skip with
    | none => [] -- log.Fatal: structural read failure aborts everything
    | some spareRaw =>
      match spareRaw.Parse with
      | none => processPairs rest skip -- invalid spare, skipping page
      | some spareTag =>
        if spareTag.ChunkID = 0 then
          -- This page contains a header to parse
          match decodeObjectHeader page with
          | none => [] -- log.Fatal: structural read failure aborts everything
          | some header =>
            if header.Checksum = (0xFF, 0xFF) then
              header :: processPairs rest skip
            else
              [] -- invalid header: break aborts the scan
        else
          processPairs rest skip

/-! ### Helper lemmas -/

lemma max_chunk_id_eq : YAFFS_MAX_CHUNK_ID = 0xfffffff := by decide

/-- A tag whose sequence number passes the range check, whose raw chunk id
has the header-info flag clear, whose object id is valid and whose chunk id
is within range parses verbatim. -/
lemma Parse_plain_eq (s o c n : Nat)
    (h1 : s ≠ 0xffff0000) (h2 : 0x1000 ≤ s) (h3 : s ≤ 0xefffff00)
    (h4 : c &&& 0x80000000 = 0)
    (h5 : objectIDValid o = true) (h6 : c ≤ 0xfffffff) :
    Yaffs2SpareRaw.Parse ⟨s, o, c, n⟩ =
      some ⟨s, o, c, n, false, 0, false, false, 0⟩ := by
  simp only [Yaffs2SpareRaw.Parse, YAFFS_SEQUENCE_BAD_BLOCK,
    YAFFS_LOWEST_SEQUENCE_NUMBER, YAFFS_HIGHEST_SEQUENCE_NUMBER,
    EXTRA_HEADER_INFO_FLAG, max_chunk_id_eq]
  rw [if_neg (by omega)]
  simp only [h4, ne_eq, not_true_eq_false, if_false, if_neg]
  rw [if_neg (by simp [h5]; omega)]

/-- A tag whose sequence number fails the range check parses to `none`
regardless of the other fields. -/
lemma Parse_bad_seq (s o c n : Nat)
    (h : s = 0xffff0000 ∨ s < 0x1000 ∨ 0xefffff00 < s) :
    Yaffs2SpareRaw.Parse ⟨s, o, c, n⟩ = none := by
  simp only [Yaffs2SpareRaw.Parse, YAFFS_SEQUENCE_BAD_BLOCK,
    YAFFS_LOWEST_SEQUENCE_NUMBER, YAFFS_HIGHEST_SEQUENCE_NUMBER]
  rw [if_pos (by omega)]

lemma scanStep_none_iff (input : List Nat) (p s : Nat) :
    scanStep input p s = none ↔
      input.length < p ∨ input.length < p + s ∨
        (checkBlockEmpty (input.take p) = true ∧
          checkBlockEmpty ((input.drop p).take s) = true) := by
  simp only [scanStep]
  split_ifs with h1 h2 h3
  · exact iff_of_true rfl (Or.inl h1)
  · rw [List.length_drop] at h2
    exact iff_of_true rfl (Or.inr (Or.inl (by omega)))
  · exact iff_of_true rfl (Or.inr (Or.inr h3))
  · rw [List.length_drop] at h2
    refine iff_of_false (by simp) ?_
    rintro (h | h | h)
    · exact h1 h
    · omega
    · exact h3 h

lemma scanStep_some_rest_lt {input rest : List Nat} {p s : Nat} {pg sp : List Nat}
    (h : scanStep input p s = some ((pg, sp), rest)) :
    rest.length < input.length := by
  simp only [scanStep] at h
  split_ifs at h with h1 h2 h3
  obtain ⟨⟨rfl, rfl⟩, rfl⟩ := by simpa using h
  simp only [List.length_drop] at h2 ⊢
  rcases Nat.eq_zero_or_pos (p + s) with hz | hpos
  · have hp : p = 0 := by omega
    have hs : s = 0 := by omega
    rw [hp, hs] at h3
    simp [checkBlockEmpty] at h3
  · omega

lemma readPairs_fuel_eq (p s : Nat) :
    ∀ f1 : Nat, ∀ input : List Nat, ∀ f2 : Nat,
      input.length < f1 → input.length < f2 →
        readPairs input p s f1 = readPairs input p s f2 := by
  intro f1
  induction f1 with
  | zero => intro input f2 hf1 hf2; omega
  | succ k ih =>
    intro input f2 hf1 hf2
    cases f2 with
    | zero => omega
    | succ m =>
      cases hstep : scanStep input p s with
      | none => simp [readPairs, hstep]
      | some val =>
        obtain ⟨⟨pg, sp⟩, rest⟩ := val
        have hlt := scanStep_some_rest_lt hstep
        simp only [readPairs, hstep]
        rw [ih rest m (by omega) (by omega)]

/-! ### Claim theorems -/

/-- Claim C5: `objectIDValid` returns true for exactly the object IDs in
{1, 2, 3, 4, 16} and every value in [256, 0x3ffff], and false for every
other value, in particular for 0, 5, 255 and 0x40000. -/
theorem objectIDValid_characterization :
    (∀ objectID : Nat, objectIDValid objectID = true ↔
      (objectID = 1 ∨ objectID = 2 ∨ objectID = 3 ∨ objectID = 4 ∨ objectID = 16 ∨
        (256 ≤ objectID ∧ objectID ≤ 0x3ffff))) ∧
    objectIDValid 0 = false ∧ objectIDValid 5 = false ∧
    objectIDValid 255 = false ∧ objectIDValid 0x40000 = false := by
  refine ⟨?_, by decide, by decide, by decide, by decide⟩
  intro objectID
  simp only [objectIDValid, YAFFS_NOBJECT_BUCKETS, YAFFS_MAX_OBJECT_ID,
    YAFFS_OBJECT_SPACE]
  split_ifs with h1 h2 <;> simp <;> omega

/-- Claim C1, counterexample: the claim says a sequence number
`s ≥ 0xefffff00` is always rejected, but the code only rejects
`s > 0xefffff00` (strictly), so a tag with the boundary value
`s = 0xefffff00` parses successfully. -/
theorem seq_boundary_accepted :
    (Yaffs2SpareRaw.Parse ⟨0xefffff00, 1, 0, 0⟩).isSome = true := by decide

/-- Claim C1 (amended): the spare-tag decoder rejects a tag regardless of
all other fields exactly when the sequence number s satisfies s < 0x1000,
s > 0xefffff00 (strictly above, the boundary value 0xefffff00 itself is
accepted), or s = 0xffff0000. -/
theorem seq_check_characterization (s : Nat) (hs : s < 2 ^ 32) :
    (s < 0x1000 ∨ 0xefffff00 < s ∨ s = 0xffff0000) ↔
      ∀ o c n, Yaffs2SpareRaw.Parse ⟨s, o, c, n⟩ = none := by
  constructor
  · intro h o c n
    exact Parse_bad_seq s o c n (by omega)
  · intro h
    by_contra hc
    push_neg at hc
    obtain ⟨h1, h2, h3⟩ := hc
    have hgood := Parse_plain_eq s 1 0 0 h3 (by omega) (by omega)
      (by decide) (by decide) (by decide)
    rw [h 1 0 0] at hgood
    exact Option.noConfusion hgood

/-- Claim C1 witness: the characterization applied at the concrete
sequence number 0x2000. -/
theorem seq_check_characterization_witness :
    (0x2000 : Nat) < 2 ^ 32 ∧
      (((0x2000 : Nat) < 0x1000 ∨ (0xefffff00 : Nat) < 0x2000 ∨
          (0x2000 : Nat) = 0xffff0000) ↔
        ∀ o c n, Yaffs2SpareRaw.Parse ⟨0x2000, o, c, n⟩ = none) :=
  ⟨by decide, seq_check_characterization 0x2000 (by decide)⟩

/-- Claim C3, counterexample: a raw record whose sequence number passes the
range check and whose chunk id has the header-info flag set does not always
decode to an extended tag --- when the masked object id is invalid (here
raw objectID 0 masks to 0, which `objectIDValid` rejects) the decoder
returns nil instead of yielding extraValid = true. -/
theorem extended_tag_needs_valid_objectid :
    Yaffs2SpareRaw.Parse ⟨0x1000, 0, 0x80000000, 0⟩ = none := by decide

/-- Claim C3 (amended): for every raw spare record whose sequence number
passes the range check, whose raw chunkID field has the header-info flag
(bit 0x80000000) set, and whose raw objectID masked to its low 28 bits is a
valid object id, decoding yields extraValid = true, chunkID = 0,
numberOfBytes = 0, parentObjectID equal to the raw chunkID with the four
high flag bits masked out, isShrink iff flag bit 0x40000000 is set,
isShadowing iff flag bit 0x20000000 is set, objectType equal to the top 4
bits of the raw objectID, and objectID equal to the raw objectID with its
top 4 bits cleared. -/
theorem extended_tag_parse (s o c n : Nat)
    (h1 : s ≠ 0xffff0000) (h2 : 0x1000 ≤ s) (h3 : s ≤ 0xefffff00)
    (hflag : c &&& 0x80000000 ≠ 0)
    (hobj : objectIDValid (o &&& 0xfffffff) = true) :
    Yaffs2SpareRaw.Parse ⟨s, o, c, n⟩ =
      some
        { SeqNumber := s
          ObjectID := o &&& 0xfffffff
          ChunkID := 0
          NumberBytes := 0
          ExtraValid := true
          ParentID := c &&& 0xfffffff
          IsShrink := c &&& 0x40000000 != 0
          Shadows := c &&& 0x20000000 != 0
          ObjType := o >>> 28 } := by
  simp only [Yaffs2SpareRaw.Parse, YAFFS_SEQUENCE_BAD_BLOCK,
    YAFFS_LOWEST_SEQUENCE_NUMBER, YAFFS_HIGHEST_SEQUENCE_NUMBER,
    EXTRA_HEADER_INFO_FLAG, EXTRA_SHRINK_FLAG, EXTRA_SHADOWS_FLAG,
    NOT_ALL_EXTRA_FLAGS, EXTRA_OBJECT_TYPE_SHIFT, NOT_EXTRA_OBJECT_TYPE_MASK,
    max_chunk_id_eq]
  rw [if_neg (by omega)]
  rw [if_pos hflag]
  rw [if_neg (by simp [hobj])]

/-- Claim C3 witness: the amended statement applied to a concrete extended
record (type nibble 1, object id 1, parent 5, shrink set, shadows clear). -/
theorem extended_tag_parse_witness :
    objectIDValid (0x10000001 &&& 0xfffffff) = true ∧
      Yaffs2SpareRaw.Parse ⟨0x1000, 0x10000001, 0xC0000005, 7⟩ =
        some
          { SeqNumber := 0x1000
            ObjectID := 0x10000001 &&& 0xfffffff
            ChunkID := 0
            NumberBytes := 0
            ExtraValid := true
            ParentID := 0xC0000005 &&& 0xfffffff
            IsShrink := 0xC0000005 &&& 0x40000000 != 0
            Shadows := 0xC0000005 &&& 0x20000000 != 0
            ObjType := 0x10000001 >>> 28 } :=
  ⟨by decide, extended_tag_parse 0x1000 0x10000001 0xC0000005 7
    (by decide) (by decide) (by decide) (by decide) (by decide)⟩

/-- Claim C6: for every raw spare record with a valid sequence number, the
header-info flag clear, a valid objectID, and chunkID not exceeding the
maximum chunk id 0xfffffff, decoding yields extraValid = false and
objectID, chunkID and numberOfBytes verbatim. -/
theorem plain_tag_roundtrip (s o c n : Nat)
    (h1 : s ≠ 0xffff0000) (h2 : 0x1000 ≤ s) (h3 : s ≤ 0xefffff00)
    (hflag : c &&& 0x80000000 = 0)
    (hobj : objectIDValid o = true) (hchunk : c ≤ 0xfffffff) :
    Yaffs2SpareRaw.Parse ⟨s, o, c, n⟩ =
      some ⟨s, o, c, n, false, 0, false, false, 0⟩ :=
  Parse_plain_eq s o c n h1 h2 h3 hflag hobj hchunk

/-- Claim C6 witness: a concrete plain tag decodes verbatim. -/
theorem plain_tag_roundtrip_witness :
    objectIDValid 1 = true ∧
      Yaffs2SpareRaw.Parse ⟨0x1000, 1, 5, 42⟩ =
        some ⟨0x1000, 1, 5, 42, false, 0, false, false, 0⟩ :=
  ⟨by decide, plain_tag_roundtrip 0x1000 1 5 42
    (by decide) (by decide) (by decide) (by decide) (by decide) (by decide)⟩

/-- Claim C7: the scan loop stops, as normal end of data, exactly when the
page-sized read is short, the spare-sized read is short, or the page
buffer and the spare buffer are simultaneously all-0xFF; and every pair
the step accepts (in particular one where only one of the two buffers is
all-0xFF) is appended to the collected lists and processing continues on
the remaining input. -/
theorem scan_termination (input : List Nat) (p s : Nat) :
    (scanStep input p s = none ↔
      input.length < p ∨ input.length < p + s ∨
        (checkBlockEmpty (input.take p) = true ∧
          checkBlockEmpty ((input.drop p).take s) = true)) ∧
    (∀ pg sp rest fuel, scanStep input p s = some ((pg, sp), rest) →
      readPairs input p s (fuel + 1) =
        (pg :: (readPairs rest p s fuel).1, sp :: (readPairs rest p s fuel).2)) := by
  refine ⟨scanStep_none_iff input p s, ?_⟩
  intro pg sp rest fuel h
  simp [readPairs, h]

/-- Claim C10: the collected page-buffer list and spare-buffer list always
have equal length (a page is appended only together with its spare in the
same iteration), so the Page / Spare Mismatch branch after the loop can
never fire; moreover any fuel above the input length computes the same
pair of lists, so `mainPairs` is the unbounded loop. -/
theorem pages_spares_balanced (input : List Nat) (p s : Nat) :
    (∀ fuel, (readPairs input p s fuel).1.length =
      (readPairs input p s fuel).2.length) ∧
    (mainPairs input p s).1.length = (mainPairs input p s).2.length ∧
    (∀ fuel, input.length < fuel →
      readPairs input p s fuel = mainPairs input p s) := by
  have key : ∀ fuel (inp : List Nat),
      (readPairs inp p s fuel).1.length = (readPairs inp p s fuel).2.length := by
    intro fuel
    induction fuel with
    | zero => intro inp; rfl
    | succ k ih =>
      intro inp
      simp only [readPairs]
      cases hstep : scanStep inp p s with
      | none => rfl
      | some val =>
        obtain ⟨⟨pg, sp⟩, rest⟩ := val
        simp [ih rest]
  refine ⟨fun fuel => key fuel input, ?_, ?_⟩
  · simpa [mainPairs] using key (input.length + 1) input
  · intro fuel hf
    exact readPairs_fuel_eq p s fuel input (input.length + 1) hf (by omega)

/-- Claim C4: when a decoded spare tag has chunkID = 0, the paired page is
decoded as an ObjectHeader; if its 2-byte checksum field differs from
{0xFF, 0xFF} the whole scan aborts immediately: no header is yielded for
this pair and no later pair is processed. -/
theorem checksum_mismatch_aborts (page spare : List Nat)
    (rest : List (List Nat × List Nat)) (skip : Nat)
    (spareRaw : Yaffs2SpareRaw) (spareTag : Yaffs2Spare) (header : ObjectHeader)
    (h1 : readSpareRaw spare skip = some spareRaw)
    (h2 : spareRaw.Parse = some spareTag)
    (h3 : spareTag.ChunkID = 0)
    (h4 : decodeObjectHeader page = some header)
    (h5 : header.Checksum ≠ (0xFF, 0xFF)) :
    processPairs ((page, spare) :: rest) skip = [] := by
  simp [processPairs, h1, h2, h3, h4, h5]

/-- Claim C8: a pair whose spare tag fails validation is skipped and the
scan continues: the result on the remaining pairs is unchanged. -/
theorem invalid_tag_skipped (page spare : List Nat)
    (rest : List (List Nat × List Nat)) (skip : Nat) (spareRaw : Yaffs2SpareRaw)
    (h1 : readSpareRaw spare skip = some spareRaw)
    (h2 : spareRaw.Parse = none) :
    processPairs ((page, spare) :: rest) skip = processPairs rest skip := by
  simp [processPairs, h1, h2]

/-- A 510-byte all-zero page: its checksum field is (0, 0). -/
def sampleBadPage : List Nat := List.replicate 510 0

/-- A 16-byte spare encoding (little-endian) sequence number 0x1000,
object id 1, chunk id 0, byte count 0: a valid header tag. -/
def sampleHeaderSpare : List Nat :=
  [0x00, 0x10, 0, 0, 1, 0, 0, 0, 0, 0, 0, 0, 0, 0, 0, 0]

/-- The ObjectHeader decoded from `sampleBadPage`. -/
def sampleHeader : ObjectHeader :=
  { ObjectType := 0
    ParentObjectID := 0
    Checksum := (0, 0)
    Name := List.replicate 256 0
    Mode := 0
    UID := 0
    GID := 0
    AccessTime := 0
    ModTime := 0
    CreateTime := 0
    FileSizeLow := List.replicate 4 0
    EquivID := 0
    Alias := List.replicate 160 0
    RDev := 0
    WinCreateTime := 0
    WinAccessTime := 0
    WinModTime := 0
    InbandShadowedObjectID := 0
    InbandIsShrink := 0
    FileSizeHigh := List.replicate 4 0
    Reserved := 0
    ShadowsObject := 0
    IsShrink := 0 }

set_option maxRecDepth 40000 in
/-- Claim C4 witness: a concrete valid header tag paired with a page whose
checksum field is (0, 0) makes the scan yield nothing. -/
theorem checksum_mismatch_aborts_witness :
    readSpareRaw sampleHeaderSpare 0 = some ⟨0x1000, 1, 0, 0⟩ ∧
      Yaffs2SpareRaw.Parse ⟨0x1000, 1, 0, 0⟩ =
        some ⟨0x1000, 1, 0, 0, false, 0, false, false, 0⟩ ∧
      decodeObjectHeader sampleBadPage = some sampleHeader ∧
      sampleHeader.Checksum ≠ (0xFF, 0xFF) ∧
      processPairs [(sampleBadPage, sampleHeaderSpare)] 0 = [] :=
  ⟨by decide, by decide, by decide, by decide,
    checksum_mismatch_aborts sampleBadPage sampleHeaderSpare [] 0
      ⟨0x1000, 1, 0, 0⟩ ⟨0x1000, 1, 0, 0, false, 0, false, false, 0⟩ sampleHeader
      (by decide) (by decide) (by decide) (by decide) (by decide)⟩

/-- Claim C8 witness: an all-zero spare has sequence number 0, its tag is
invalid, and the pair contributes nothing to the scan output. -/
theorem invalid_tag_skipped_witness :
    readSpareRaw (List.replicate 16 0) 0 = some ⟨0, 0, 0, 0⟩ ∧
      Yaffs2SpareRaw.Parse ⟨0, 0, 0, 0⟩ = none ∧
      processPairs [([], List.replicate 16 0)] 0 = processPairs [] 0 :=
  ⟨by decide, by decide,
    invalid_tag_skipped [] (List.replicate 16 0) [] 0 ⟨0, 0, 0, 0⟩
      (by decide) (by decide)⟩

/-! ### Detection as a first-match search over an ordered candidate list -/

/-- The Cartesian product of candidate page sizes (outermost), spare sizes,
and skip offsets (innermost), in the exact order `detectSettings` tries
them. -/
def candidateOrder : List (Nat × Nat × Nat) :=
  [(1024, 32, 0), (1024, 32, 2), (1024, 64, 0), (1024, 64, 2), (1024, 128, 0),
    (1024, 128, 2), (1024, 256, 0), (1024, 256, 2), (1024, 512, 0), (1024, 512, 2),
    (2048, 32, 0), (2048, 32, 2), (2048, 64, 0), (2048, 64, 2), (2048, 128, 0),
    (2048, 128, 2), (2048, 256, 0), (2048, 256, 2), (2048, 512, 0), (2048, 512, 2),
    (4096, 32, 0), (4096, 32, 2), (4096, 64, 0), (4096, 64, 2), (4096, 128, 0),
    (4096, 128, 2), (4096, 256, 0), (4096, 256, 2), (4096, 512, 0), (4096, 512, 2),
    (8192, 32, 0), (8192, 32, 2), (8192, 64, 0), (8192, 64, 2), (8192, 128, 0),
    (8192, 128, 2), (8192, 256, 0), (8192, 256, 2), (8192, 512, 0), (8192, 512, 2),
    (16384, 32, 0), (16384, 32, 2), (16384, 64, 0), (16384, 64, 2), (16384, 128, 0),
    (16384, 128, 2), (16384, 256, 0), (16384, 256, 2), (16384, 512, 0), (16384, 512, 2)]


/-- The `Settings` record `detectSettings` returns for an accepted
candidate. -/
def mkS (p sp sk : Nat) : Settings :=
  { PageSize := p, SpareSize := sp, SpareSkip := sk,
    ByteOrder := BinaryByteOrder.littleEndian }

lemma detect_aux3 (input : List Nat) (p sp : Nat) (l3 : List Nat) :
    (l3.findSome? fun sk =>
        if candidateOK input p sp sk then some (mkS p sp sk) else none) =
      ((l3.map fun sk => (p, sp, sk)).find? fun t =>
          candidateOK input t.1 t.2.1 t.2.2).map fun t => mkS t.1 t.2.1 t.2.2 := by
  induction l3 with
  | nil => rfl
  | cons sk l ih =>
    by_cases h : candidateOK input p sp sk
    · simp [List.findSome?_cons, h]
    · simp [List.findSome?_cons, h, ih]

lemma detect_aux2 (input : List Nat) (p : Nat) (l2 l3 : List Nat) :
    (l2.findSome? fun sp =>
        l3.findSome? fun sk =>
          if candidateOK input p sp sk then some (mkS p sp sk) else none) =
      ((l2.flatMap fun sp => l3.map fun sk => (p, sp, sk)).find? fun t =>
          candidateOK input t.1 t.2.1 t.2.2).map fun t => mkS t.1 t.2.1 t.2.2 := by
  induction l2 with
  | nil => rfl
  | cons sp l ih =>
    simp only [List.flatMap_cons, List.find?_append, List.findSome?_cons,
      detect_aux3 input p sp l3, ih]
    cases hh : (l3.map fun sk => (p, sp, sk)).find? fun t =>
        candidateOK input t.1 t.2.1 t.2.2 <;>
      simp [hh]

lemma detect_aux1 (input : List Nat) (l1 l2 l3 : List Nat) :
    (l1.findSome? fun p =>
        l2.findSome? fun sp =>
          l3.findSome? fun sk =>
            if candidateOK input p sp sk then some (mkS p sp sk) else none) =
      ((l1.flatMap fun p =>
            l2.flatMap fun sp => l3.map fun sk => (p, sp, sk)).find? fun t =>
          candidateOK input t.1 t.2.1 t.2.2).map fun t => mkS t.1 t.2.1 t.2.2 := by
  induction l1 with
  | nil => rfl
  | cons p l ih =>
    simp only [List.flatMap_cons, List.find?_append, List.findSome?_cons,
      detect_aux2 input p l2 l3, ih]
    cases hh : (l2.flatMap fun sp => l3.map fun sk => (p, sp, sk)).find? fun t =>
        candidateOK input t.1 t.2.1 t.2.2 <;>
      simp [hh]

/-- `detectSettings` is the first-match search over `candidateOrder`. -/
lemma detectSettings_eq_find (input : List Nat) :
    detectSettings input =
      (candidateOrder.find? fun t => candidateOK input t.1 t.2.1 t.2.2).map
        fun t => mkS t.1 t.2.1 t.2.2 := by
  have hord : candidateOrder =
      pageSizes.flatMap fun p =>
        spareSizes.flatMap fun sp => spareSkips.map fun sk => (p, sp, sk) := by
    decide
  rw [hord, ← detect_aux1 input pageSizes spareSizes spareSkips]
  rfl

lemma readPairs_two (input : List Nat) (p s : Nat) :
    readPairs input p s 2 =
      match scanStep input p s with
      | none => ([], [])
      | some ((pg1, sp1), r1) =>
        match scanStep r1 p s with
        | none => ([pg1], [sp1])
        | some ((pg2, sp2), _) => ([pg1, pg2], [sp1, sp2]) := by
  cases h1 : scanStep input p s with
  | none => simp [readPairs, h1]
  | some v1 =>
    obtain ⟨⟨pg1, sp1⟩, r1⟩ := v1
    cases h2 : scanStep r1 p s with
    | none => simp [readPairs, h1, h2]
    | some v2 =>
      obtain ⟨⟨pg2, sp2⟩, r2⟩ := v2
      simp [readPairs, h1, h2]

lemma candidateOK_iff (input : List Nat) (p sp sk : Nat) :
    candidateOK input p sp sk = true ↔
      ∃ pg1 s1 r1 pg2 s2 r2 raw1 t1 raw2,
        scanStep input p sp = some ((pg1, s1), r1) ∧
        scanStep r1 p sp = some ((pg2, s2), r2) ∧
        readSpareRaw s1 sk = some raw1 ∧
        raw1.Parse = some t1 ∧ t1.ChunkID = 0 ∧
        readSpareRaw s2 sk = some raw2 ∧ raw2.Parse.isSome = true := by
  unfold candidateOK
  rw [readPairs_two]
  cases h1 : scanStep input p sp with
  | none => simp [h1]
  | some v1 =>
    obtain ⟨⟨pg1, s1⟩, r1⟩ := v1
    cases h2 : scanStep r1 p sp with
    | none => simp [h2]
    | some v2 =>
      obtain ⟨⟨pg2, s2⟩, r2⟩ := v2
      cases h3 : readSpareRaw s1 sk with
      | none => simp [h2, h3]
      | some raw1 =>
        cases h4 : raw1.Parse with
        | none => simp [h2, h3, h4]
        | some t1 =>
          by_cases h5 : t1.ChunkID = 0
          · cases h6 : readSpareRaw s2 sk with
            | none => simp [h2, h3, h4, h5, h6]
            | some raw2 =>
              simp [h2, h3, h4, h5, h6]
              constructor
              · intro h
                exact ⟨pg1, s1, r1, ⟨⟨rfl, rfl⟩, rfl⟩, pg2, s2, ⟨r2, h2⟩,
                  raw1, h3, t1, h4, h5, raw2, h6, h⟩
              · rintro ⟨pg1x, s1x, r1x, ⟨⟨heqa, heqb⟩, heqc⟩, x, x1, ⟨x2, hx⟩,
                  raw1x, hraw1, t1x, hp1, hc1, raw2x, hraw2, hps⟩
                subst heqa
                subst heqb
                subst heqc
                rw [h2] at hx
                obtain ⟨⟨rfl, rfl⟩, rfl⟩ := by simpa using hx
                rw [h6] at hraw2
                obtain rfl : raw2 = raw2x := by simpa using hraw2
                exact hps
          · simp [h2, h3, h4, h5]

/-- Claim C2: `detectSettings` enumerates candidate geometries as the
Cartesian product of the page sizes (outermost), spare sizes, and skip
offsets (innermost) in the order listed by `candidateOrder`, and returns
the first candidate passing the check; the check holds exactly when two
full page+spare pairs are readable and non-blank, the spare tag of pair 0
decodes as valid with chunkID = 0, and the spare tag of pair 1 decodes as
valid. -/
theorem detect_enumeration (input : List Nat) :
    detectSettings input =
      (candidateOrder.find? fun t => candidateOK input t.1 t.2.1 t.2.2).map
        (fun t => mkS t.1 t.2.1 t.2.2) ∧
    (∀ p sp sk, candidateOK input p sp sk = true ↔
      ∃ pg1 s1 r1 pg2 s2 r2 raw1 t1 raw2,
        scanStep input p sp = some ((pg1, s1), r1) ∧
        scanStep r1 p sp = some ((pg2, s2), r2) ∧
        readSpareRaw s1 sk = some raw1 ∧
        raw1.Parse = some t1 ∧ t1.ChunkID = 0 ∧
        readSpareRaw s2 sk = some raw2 ∧ raw2.Parse.isSome = true) :=
  ⟨detectSettings_eq_find input, fun p sp sk => candidateOK_iff input p sp sk⟩

/-- Claim C9: when no candidate geometry passes the detection check,
`detectSettings` returns the not-detected outcome (`none`) and `main`
proceeds with the default geometry pageSize = 2048, spareSize = 64,
spareSkip = 0, little-endian. -/
theorem detect_fallback (input : List Nat)
    (h : ∀ t ∈ candidateOrder, candidateOK input t.1 t.2.1 t.2.2 = false) :
    detectSettings input = none ∧ mainSettings input = defaultSettings := by
  have hfind : (candidateOrder.find? fun t =>
      candidateOK input t.1 t.2.1 t.2.2) = none := by
    rw [List.find?_eq_none]
    intro x hx
    simp [h x hx]
  have hdet : detectSettings input = none := by
    rw [detectSettings_eq_find input, hfind]
    rfl
  exact ⟨hdet, by simp [mainSettings, hdet]⟩

/-- Claim C9 witness: on the empty byte source every candidate fails (no
pair is readable at all) and the fallback default is used. -/
theorem detect_fallback_witness :
    (∀ t ∈ candidateOrder, candidateOK [] t.1 t.2.1 t.2.2 = false) ∧
      detectSettings [] = none ∧ mainSettings [] = defaultSettings :=
  ⟨by decide, detect_fallback [] (by decide)⟩
